import Mathlib

/-!
Shallow embedding of the orchestration core of the AIND behavior experiment
launcher (ServiceFactory / ServicesFactoryManager, ResourceMonitor and its
Constraint list, the GitRepository version-control guard, and the
BaseLauncher / BehaviorLauncher lifecycle), together with theorems settling
the frozen claims about it.

Python sources embedded:
- src/aind_behavior_experiment_launcher/services.py
- src/aind_behavior_experiment_launcher/resource_monitor/_base.py
- src/aind_behavior_experiment_launcher/git_manager/_git.py
- src/aind_behavior_experiment_launcher/launcher/git_manager.py
- src/aind_behavior_experiment_launcher/launcher/_base.py
- src/aind_behavior_experiment_launcher/launcher/behavior_launcher.py

Mutable Python objects become explicit state passing; methods that mutate
return the new state. Exceptions become Except or an explicit control value.
External collaborators (GitPython, subprocess, shutil, the interactive UI
helper) are modelled from their documented interfaces, with the values they
would produce (prompt answers, process success or failure) passed in as
parameters.
-/

namespace Clabe

/-! ### services.py: ServiceFactory

A ServiceFactory wraps either a pre-built service (field service set, field
service_factory unset) or a deferred constructor (field service_factory set,
field service unset). `build` returns the cache when set; otherwise it calls
the constructor once and caches the result. The extra Nat returned by `build`
counts how many times the underlying constructor was invoked by that call
(0 or 1), so that construction counts can be stated. -/

structure ServiceFactory (L S : Type) where
  service_factory : Option (L → S)
  service : Option S

/-- Constructor branch of ServiceFactory.__init__ taking a pre-built service
(the isinstance(service_or_factory, IService) branch). -/
def ServiceFactory.ofService {L S : Type} (s : S) : ServiceFactory L S :=
  ⟨none, some s⟩

/-- Constructor branch of ServiceFactory.__init__ taking a deferred
constructor (the callable(service_or_factory) branch). -/
def ServiceFactory.ofFactory {L S : Type} (f : L → S) : ServiceFactory L S :=
  ⟨some f, none⟩

/-- ServiceFactory.build: returns the cached instance if set, else invokes
the deferred constructor with the launcher and caches the result; raises
ValueError when neither is set. Returns (new factory state, service,
number of constructor invocations performed by this call). -/
def ServiceFactory.build {L S : Type} (fac : ServiceFactory L S) (launcher : L) :
    Except String (ServiceFactory L S × S × Nat) :=
  match fac.service with
  | some s => Except.ok (fac, s, 0)
  | none =>
    match fac.service_factory with
    | none => Except.error "Service factory is not set"
    | some f => Except.ok ({ fac with service := some (f launcher) }, f launcher, 1)

/-- Iterated builds: one `build` call per launcher in the list, threading the
factory state, collecting the returned services and the total number of
constructor invocations. -/
def ServiceFactory.buildList {L S : Type} (fac : ServiceFactory L S) :
    List L → Except String (ServiceFactory L S × List S × Nat)
  | [] => Except.ok (fac, [], 0)
  | l :: ls =>
    match fac.build l with
    | Except.error e => Except.error e
    | Except.ok (fac1, s, n1) =>
      match fac1.buildList ls with
      | Except.error e => Except.error e
      | Except.ok (fac2, ss, n2) => Except.ok (fac2, s :: ss, n1 + n2)

/-! ### services.py: ServicesFactoryManager

The services dict is modelled as an association list in insertion order;
Python dict keys are unique, which attach_service_factory preserves by
raising on duplicates. attach is modelled as a state transformer returning
the raised-or-ok outcome alongside the (possibly unchanged) manager. -/

structure ServicesFactoryManager (L S : Type) where
  launcher_reference : Option L
  services : List (String × ServiceFactory L S)

/-- ServicesFactoryManager.attach_service_factory: raises IndexError if the
name is already registered (before touching the dict), else stores the
factory under the name. -/
def ServicesFactoryManager.attach_service_factory {L S : Type}
    (m : ServicesFactoryManager L S) (name : String) (fac : ServiceFactory L S) :
    Except String Unit × ServicesFactoryManager L S :=
  if m.services.any (fun p => p.1 == name) then
    (Except.error ("Service with name " ++ name ++ " is already registered"), m)
  else
    (Except.ok (), { m with services := m.services ++ [(name, fac)] })

/-! ### resource_monitor/_base.py: Constraint and ResourceMonitor

A Constraint bundles a predicate with its bound arguments (args and kwargs
folded into one argument pack of type alpha) and an optional failure-message
producer. evaluate_constraints walks the list in order; its result is
(returned bool, number of constraints invoked, logged error messages), so
invoked constraints are exactly the first (count) ones of the list. -/

structure Constraint (α : Type) where
  name : String
  constraint : α → Bool
  args : α
  fail_msg_handler : Option (α → String)

/-- Constraint.__call__: applies the predicate to the bound arguments. -/
def Constraint.call {α : Type} (c : Constraint α) : Bool :=
  c.constraint c.args

/-- Constraint.on_fail: the handler applied to the bound arguments when set,
else the default message. -/
def Constraint.on_fail {α : Type} (c : Constraint α) : String :=
  match c.fail_msg_handler with
  | some h => h c.args
  | none => "Constraint " ++ c.name ++ " failed."

structure ResourceMonitor (α : Type) where
  constraints : List (Constraint α)

/-- ResourceMonitor.__init__: the Python expression (constrains or [])
yields [] both for None and for an empty (falsy) list. -/
def ResourceMonitor.init {α : Type} (constrains : Option (List (Constraint α))) :
    ResourceMonitor α :=
  ⟨match constrains with
   | none => []
   | some l => if l.isEmpty then [] else l⟩

/-- Loop body of ResourceMonitor.evaluate_constraints: on the first failing
constraint, log its on_fail message and return False immediately; return
True after the whole list passed. The Nat counts constraints invoked. -/
def evalConstraintList {α : Type} : List (Constraint α) → Bool × Nat × List String
  | [] => (true, 0, [])
  | c :: rest =>
    if c.call then
      let r := evalConstraintList rest
      (r.1, r.2.1 + 1, r.2.2)
    else
      (false, 1, [c.on_fail])

/-- ResourceMonitor.evaluate_constraints. -/
def ResourceMonitor.evaluate_constraints {α : Type} (m : ResourceMonitor α) :
    Bool × Nat × List String :=
  evalConstraintList m.constraints

/-- ResourceMonitor.validate: returns evaluate_constraints(). -/
def ResourceMonitor.validate {α : Type} (m : ResourceMonitor α) : Bool :=
  m.evaluate_constraints.1

/-! ### git_manager/_git.py: GitRepository over an abstract repository state

The GitPython Repo object is external; a repository is modelled by the facts
the embedded methods query: the paths with index-vs-HEAD diffs (staged), the
paths with working-tree-vs-index diffs (unstaged), the untracked paths, and
the same data for each registered submodule (one level, as the claims need).

GitPython semantics used (from its documented interface):
- Repo.is_dirty(index=True, working_tree=True, untracked_files=b,
  submodules=True by default) is true iff the index or working tree has
  changes - with submodules not ignored, a submodule whose checkout has
  uncommitted content shows up in the diff - or, when b, untracked files
  exist.
- repo.index.diff(None) lists working-tree-vs-index changes and
  repo.index.diff("HEAD") lists index-vs-HEAD changes.
- list(set(...)) returns the elements in an unspecified order; it is
  modelled as List.dedup, deterministic up to that order. -/

structure SubRepoState where
  stagedPaths : List String
  unstagedPaths : List String
  untracked : List String
deriving DecidableEq, Repr

structure RepoState where
  stagedPaths : List String
  unstagedPaths : List String
  untracked : List String
  submodules : List SubRepoState
deriving DecidableEq, Repr

/-- Whether a submodule checkout has any uncommitted content (staged,
unstaged or untracked); this is what makes it show as dirty in the parent
diff when submodules are not ignored. -/
def SubRepoState.hasUncommitted (s : SubRepoState) : Bool :=
  !s.stagedPaths.isEmpty || !s.unstagedPaths.isEmpty || !s.untracked.isEmpty

/-- GitPython Repo.is_dirty on a submodule checkout opened as its own
repository (no further nested submodules are modelled). -/
def SubRepoState.is_dirty (s : SubRepoState) (untracked_files : Bool) : Bool :=
  !s.stagedPaths.isEmpty || !s.unstagedPaths.isEmpty
    || (untracked_files && !s.untracked.isEmpty)

/-- GitPython Repo.is_dirty on the top-level repository, with the default
submodules=True so dirty submodule content counts as a working-tree diff. -/
def RepoState.is_dirty (r : RepoState) (untracked_files : Bool) : Bool :=
  !r.stagedPaths.isEmpty || !r.unstagedPaths.isEmpty
    || r.submodules.any SubRepoState.hasUncommitted
    || (untracked_files && !r.untracked.isEmpty)

/-- GitRepository.is_dirty_with_submodules: is_dirty(untracked_files=True)
on the repository itself, else any over the submodules. -/
def RepoState.is_dirty_with_submodules (r : RepoState) : Bool :=
  if r.is_dirty true then true
  else r.submodules.any (fun s => s.is_dirty true)

/-- GitRepository._get_changes: paths of index.diff(None) plus
index.diff("HEAD"). -/
def SubRepoState.getChanges (s : SubRepoState) : List String :=
  s.unstagedPaths ++ s.stagedPaths

/-- GitRepository.uncommitted_changes: untracked files and _get_changes of
the repository and of every submodule, as a duplicate-free list
(list(set(...)) in the source). -/
def RepoState.uncommitted_changes (r : RepoState) : List String :=
  (((r.unstagedPaths ++ r.stagedPaths)
      ++ (r.submodules.map SubRepoState.getChanges).flatten)
    ++ (r.untracked ++ (r.submodules.map SubRepoState.untracked).flatten)).dedup

/-- launcher/git_manager.py GitRepository.untracked_files_with_submodules:
untracked files of the repository extended by each submodule's. -/
def RepoState.untracked_files_with_submodules (r : RepoState) : List String :=
  r.untracked ++ (r.submodules.map SubRepoState.untracked).flatten

/-- GitRepository.full_reset: reset_repo (hard reset clears staged and
unstaged changes), submodules_sync, force_update_submodules, clean_repo
(removes untracked files), then a recursive full_reset of every submodule,
leaving everything clean. -/
def RepoState.full_reset (r : RepoState) : RepoState :=
  ⟨[], [], [], r.submodules.map fun _ => ⟨[], [], []⟩⟩

/-- Outcome of try_prompt_full_reset: the repository state it leaves behind,
whether the yes/no prompt was issued, the uncommitted-path list surfaced in
the log before prompting (none when nothing was logged), and whether
full_reset ran. -/
structure ResetResult where
  repo : RepoState
  prompted : Bool
  surfaced : Option (List String)
  didReset : Bool
deriving DecidableEq, Repr

/-- git_manager/_git.py GitRepository.try_prompt_full_reset: with force_reset
it resets at once; otherwise, when dirty (submodules included), it logs the
uncommitted paths, prompts, and resets exactly on a yes answer. The prompt
backend is modelled by the answer it would return. -/
def RepoState.try_prompt_full_reset (r : RepoState) (answer : Bool)
    (force_reset : Bool) : ResetResult :=
  if force_reset then
    ⟨r.full_reset, false, none, true⟩
  else if r.is_dirty_with_submodules then
    -- logger.info working_dir; logger.info uncommitted_changes; the inner
    -- `if not force_reset` is true on this branch, so the prompt is issued
    if answer then
      ⟨r.full_reset, true, some r.uncommitted_changes, true⟩
    else
      ⟨r, true, some r.uncommitted_changes, false⟩
  else
    ⟨r, false, none, false⟩

/-- launcher/git_manager.py GitRepository.try_prompt_full_reset (the copy
used by launcher/_base.py): identical control flow, logging
untracked_files_with_submodules instead of uncommitted_changes. -/
def RepoState.try_prompt_full_reset_launcher_copy (r : RepoState) (answer : Bool)
    (force_reset : Bool) : ResetResult :=
  if force_reset then
    ⟨r.full_reset, false, none, true⟩
  else if r.is_dirty_with_submodules then
    if answer then
      ⟨r.full_reset, true, some r.untracked_files_with_submodules, true⟩
    else
      ⟨r, true, some r.untracked_files_with_submodules, false⟩
  else
    ⟨r, false, none, false⟩

/-! ### launcher/_base.py and launcher/behavior_launcher.py: the lifecycle

The run is modelled as a trace semantics: each lifecycle method yields the
list of observable events it performs plus a control value saying how it
returned (normally, via sys.exit - a SystemExit propagating - or with an
uncaught Python exception). The environment the hooks interact with (the
external-process adapter, the optional data mapper and data transfer
services, the temp-directory copy) is summarised in a LauncherModel carrying
the outcome each external call would have. -/

inductive Ev where
  | pickSession
  | pickTaskLogic
  | pickRig
  | preRunStarted
  | appSettingsAdded
  | appRun
  | appOutputValidated
  | postRunStarted
  | mapperInvoked
  | logHandlersClosed
  | copyAttempted
  | transferValidated
  | transferInvoked
  | errorLogged (msg : String)
  | exitCalled (code : Int)
  | disposed
deriving DecidableEq, Repr

inductive Control where
  | normal
  | systemExit (code : Int)
  | keyboardInterrupt
  | pyExc (msg : String)
deriving DecidableEq, Repr

/-- Failure modes of BaseLauncher._copy_tmp_directory: the session_directory
property raises ValueError when session_name is unset, and shutil.copytree
raises OSError (or its subclass shutil.Error) when copying fails. -/
inductive CopyFailure where
  | valueError
  | osError
deriving DecidableEq, Repr

/-- An attached data-transfer service, by the outcomes of its two calls. -/
structure DataTransferModel where
  validates : Bool
  transferFails : Bool
deriving DecidableEq, Repr

/-- Environment of one BehaviorLauncher run: which optional services are
attached and what every external call would do. dataMapper: none when no
mapper service is attached, some b with b true when map() would raise. -/
structure LauncherModel where
  appSignalsFailure : Bool
  dataMapper : Option Bool
  skipDataMapping : Bool
  copyOutcome : Option CopyFailure
  dataTransfer : Option DataTransferModel
  skipDataTransfer : Bool
deriving DecidableEq, Repr

/-- BaseLauncher._exit: logs and calls sys.exit(code), which raises
SystemExit. -/
def BaseLauncher.exitRun (code : Int) : List Ev × Control :=
  ([Ev.exitCalled code], Control.systemExit code)

/-- BehaviorLauncher._pre_run_hook: back-fills the experiment name and
version from the task-logic schema into the session schema; no external
calls, always returns normally. -/
def BehaviorLauncher.pre_run_hook : List Ev × Control :=
  ([Ev.preRunStarted], Control.normal)

/-- BehaviorLauncher._run_hook: adds the app settings, then runs the
external-process adapter and validates its output inside a try block; a
subprocess.CalledProcessError - the failure signal of the adapter interface -
is caught, logged, and turned into _exit(-1). -/
def BehaviorLauncher.run_hook (m : LauncherModel) : List Ev × Control :=
  if m.appSignalsFailure then
    ([Ev.appSettingsAdded, Ev.appRun,
      Ev.errorLogged "Bonsai app failed to run.", Ev.exitCalled (-1)],
     Control.systemExit (-1))
  else
    ([Ev.appSettingsAdded, Ev.appRun, Ev.appOutputValidated], Control.normal)

/-- BehaviorLauncher._post_run_hook: the data-mapper step is guarded by
except Exception; close_file_handlers follows; the temp-directory copy is
guarded by except ValueError only, so an OSError from the copy propagates;
the data-transfer step (validate, then transfer) is guarded by
except Exception. -/
def BehaviorLauncher.post_run_hook (m : LauncherModel) : List Ev × Control :=
  let mapperEvs : List Ev :=
    match m.dataMapper, m.skipDataMapping with
    | some raises, false =>
      if raises then
        [Ev.mapperInvoked, Ev.errorLogged "Data mapper service has failed"]
      else
        [Ev.mapperInvoked]
    | _, _ => []
  let headEvs := Ev.postRunStarted :: mapperEvs ++ [Ev.logHandlersClosed]
  match m.copyOutcome with
  | some CopyFailure.osError =>
    -- only ValueError is caught around _copy_tmp_directory
    (headEvs ++ [Ev.copyAttempted], Control.pyExc "copytree failed")
  | other =>
    let copyEvs : List Ev :=
      match other with
      | some CopyFailure.valueError =>
        [Ev.copyAttempted,
         Ev.errorLogged "Failed to copy temporary logs directory to session directory."]
      | _ => [Ev.copyAttempted]
    let transferEvs : List Ev :=
      match m.dataTransfer, m.skipDataTransfer with
      | some dt, false =>
        if !dt.validates then
          [Ev.transferValidated, Ev.errorLogged "Data transfer service has failed"]
        else if dt.transferFails then
          [Ev.transferValidated, Ev.transferInvoked,
           Ev.errorLogged "Data transfer service has failed"]
        else
          [Ev.transferValidated, Ev.transferInvoked]
      | _, _ => []
    (headEvs ++ copyEvs ++ transferEvs, Control.normal)

/-- Sequencing of two steps: the second runs only when the first returned
normally; a SystemExit, KeyboardInterrupt or other exception propagates. -/
def seqStep (a : List Ev × Control) (b : Unit → List Ev × Control) :
    List Ev × Control :=
  match a with
  | (evs, Control.normal) =>
    let r := b ()
    (evs ++ r.1, r.2)
  | other => other

/-- BaseLauncher._run_hooks: pre-run, run and post-run hooks in sequence. -/
def BaseLauncher.run_hooks (m : LauncherModel) : List Ev × Control :=
  seqStep BehaviorLauncher.pre_run_hook fun _ =>
    seqStep (BehaviorLauncher.run_hook m) fun _ =>
      BehaviorLauncher.post_run_hook m

/-- The picker bound to the launcher, by the configuration objects its three
operations would produce, together with the overrides the launcher was
constructed with (_rig_schema / _task_logic_schema pre-set by
_solve_schema_instances). -/
structure PickerModel (R S T : Type) where
  rigPreset : Option R
  taskLogicPreset : Option T
  pickSession : S
  pickTaskLogic : T
  pickRig : R

/-- BaseLauncher._ui_prompt: always invokes pick_session, then invokes
pick_task_logic only when no task-logic schema is set, then pick_rig only
when no rig schema is set; returns the three resolved configuration
objects (session, task logic, rig). -/
def BaseLauncher.ui_prompt {R S T : Type} (p : PickerModel R S T) :
    List Ev × S × T × R :=
  (Ev.pickSession ::
     ((if p.taskLogicPreset.isNone then [Ev.pickTaskLogic] else []) ++
      (if p.rigPreset.isNone then [Ev.pickRig] else [])),
   p.pickSession,
   (match p.taskLogicPreset with
    | some t => t
    | none => p.pickTaskLogic),
   (match p.rigPreset with
    | some rg => rg
    | none => p.pickRig))

/-- BaseLauncher._solve_schema_instances: for each of rig and task logic, a
CLI-supplied path takes precedence over the constructor argument; when a
path results, the schema instance is loaded from that file (the JSON loader
is abstracted as a function from paths to models), else it stays unset. -/
def BaseLauncher.solve_schema_instances {R T : Type}
    (loadRig : String → R) (loadTask : String → T)
    (cli_rig_path cli_task_logic_path : Option String)
    (rig_schema_path task_logic_schema : Option String) :
    Option R × Option T :=
  let rig_path :=
    match cli_rig_path with
    | some p => some p
    | none => rig_schema_path
  let task_path :=
    match cli_task_logic_path with
    | some p => some p
    | none => task_logic_schema
  (rig_path.map loadRig, task_path.map loadTask)

/-- BaseLauncher.main: _ui_prompt, _run_hooks, dispose (which is _exit(0)),
inside a try whose only handler catches KeyboardInterrupt and converts it
into a logged _exit(-1); SystemExit and other exceptions propagate. -/
def BaseLauncher.main {R S T : Type} (m : LauncherModel) (p : PickerModel R S T) :
    List Ev × Control :=
  let pr := BaseLauncher.ui_prompt p
  match BaseLauncher.run_hooks m with
  | (evs, Control.normal) =>
    (pr.1 ++ evs ++ [Ev.disposed, Ev.exitCalled 0], Control.systemExit 0)
  | (evs, Control.keyboardInterrupt) =>
    (pr.1 ++ evs ++ [Ev.errorLogged "User interrupted the process.",
                     Ev.exitCalled (-1)],
     Control.systemExit (-1))
  | (evs, c) => (pr.1 ++ evs, c)

/-- Result of BaseLauncher.validate: the repository state it leaves behind,
the _exit code when validation failed fatally, and whether the reset prompt
was issued. -/
structure ValidateResult where
  repo : RepoState
  fatalExit : Option Int
  prompted : Bool
deriving DecidableEq, Repr

/-- BaseLauncher.validate: enters its dirty-repository branch when
repository.is_dirty() - GitPython default, untracked_files=False - holds;
then, unless allow_dirty, calls try_prompt_full_reset (the
launcher/git_manager.py copy, force_reset=False) and exits with -1 when
is_dirty_with_submodules() still holds; with allow_dirty it only logs the
untracked files. -/
def BaseLauncher.validate (r : RepoState) (allow_dirty : Bool) (answer : Bool) :
    ValidateResult :=
  if r.is_dirty false then
    if !allow_dirty then
      let res := r.try_prompt_full_reset_launcher_copy answer false
      if res.repo.is_dirty_with_submodules then
        ⟨res.repo, some (-1), res.prompted⟩
      else
        ⟨res.repo, none, res.prompted⟩
    else
      ⟨r, none, false⟩
  else
    ⟨r, none, false⟩

/-- One whole launch: validate runs during construction (_post_init); a
fatal validation exit prevents main - and with it the Run hook - from ever
running, else main executes the lifecycle. -/
def launchRun {R S T : Type} (r : RepoState) (allow_dirty answer : Bool)
    (m : LauncherModel) (p : PickerModel R S T) : List Ev × Control :=
  match (BaseLauncher.validate r allow_dirty answer).fatalExit with
  | some code => ([Ev.exitCalled code], Control.systemExit code)
  | none => BaseLauncher.main m p

/-! ### Theorems -/

/-- Helper: a factory whose cache is already populated returns the cached
service on every build, never invoking a constructor, and its state never
changes. -/
theorem ServiceFactory.buildList_cached {L S : Type} (f : Option (L → S)) (s : S)
    (ls : List L) :
    (ServiceFactory.mk f (some s)).buildList ls =
      Except.ok (⟨f, some s⟩, ls.map fun _ => s, 0) := by
  induction ls with
  | nil => rfl
  | cons l ls ih =>
    simp [ServiceFactory.buildList, ServiceFactory.build, ih, Except.bind]

/-- C1: after the first successful ServiceFactory.build the deferred
constructor is never invoked again - every one of the N >= 1 build calls
returns the same cached instance and the total construction count is 1 -
while a factory made from a pre-built instance returns it on every build
with construction count 0. -/
theorem serviceFactory_constructs_at_most_once {L S : Type} (f : L → S) (s0 : S)
    (l : L) (ls : List L) :
    ((ServiceFactory.ofFactory f).buildList (l :: ls) =
        Except.ok (⟨some f, some (f l)⟩, (l :: ls).map (fun _ => f l), 1))
    ∧ ((ServiceFactory.ofService (L := L) s0).buildList (l :: ls) =
        Except.ok (⟨none, some s0⟩, (l :: ls).map (fun _ => s0), 0)) := by
  constructor
  · simp [ServiceFactory.buildList, ServiceFactory.build, ServiceFactory.ofFactory,
      ServiceFactory.buildList_cached, Except.bind]
  · simpa using ServiceFactory.buildList_cached (L := L) none s0 (l :: ls)

/-- C2: once a name is registered, a second attach_service_factory under the
same name raises and leaves the registry exactly as it was - no overwrite,
no build. -/
theorem attach_service_factory_rejects_duplicate {L S : Type}
    (m : ServicesFactoryManager L S) (name : String)
    (fac1 fac2 : ServiceFactory L S)
    (h : (m.attach_service_factory name fac1).1 = Except.ok ()) :
    (((m.attach_service_factory name fac1).2.attach_service_factory name fac2).1 =
        Except.error ("Service with name " ++ name ++ " is already registered"))
    ∧ ((m.attach_service_factory name fac1).2.attach_service_factory name fac2).2 =
        (m.attach_service_factory name fac1).2 := by
  by_cases hA : (m.services.any fun p => p.1 == name) = true
  · simp [ServicesFactoryManager.attach_service_factory, hA] at h
  · simp [ServicesFactoryManager.attach_service_factory, hA, List.any_append]

/-- Witness for C2 at a concrete registry: attaching the name app twice to
an empty manager fails on the second attach and leaves the registry as it
was after the first. -/
theorem attach_service_factory_rejects_duplicate_witness :
    ((((⟨none, []⟩ : ServicesFactoryManager Unit Unit).attach_service_factory
          "app" (ServiceFactory.ofService ())).2.attach_service_factory
          "app" (ServiceFactory.ofService ())).1 =
      Except.error ("Service with name " ++ "app" ++ " is already registered"))
    ∧ ((((⟨none, []⟩ : ServicesFactoryManager Unit Unit).attach_service_factory
          "app" (ServiceFactory.ofService ())).2.attach_service_factory
          "app" (ServiceFactory.ofService ())).2 =
        ((⟨none, []⟩ : ServicesFactoryManager Unit Unit).attach_service_factory
          "app" (ServiceFactory.ofService ())).2) :=
  attach_service_factory_rejects_duplicate ⟨none, []⟩ "app"
    (ServiceFactory.ofService ()) (ServiceFactory.ofService ()) rfl

/-- Helper: the boolean returned by the evaluation loop is the conjunction
of all constraint predicates. -/
theorem evalConstraintList_fst {α : Type} (cs : List (Constraint α)) :
    (evalConstraintList cs).1 = cs.all Constraint.call := by
  induction cs with
  | nil => rfl
  | cons c rest ih =>
    by_cases h : c.call = true <;> simp [evalConstraintList, h, ih]

/-- Helper: when every constraint passes, the loop invokes all of them and
logs nothing. -/
theorem evalConstraintList_all_pass {α : Type} (cs : List (Constraint α))
    (h : ∀ p ∈ cs, p.call = true) :
    evalConstraintList cs = (true, cs.length, []) := by
  induction cs with
  | nil => rfl
  | cons c rest ih =>
    have hc : c.call = true := h c (by simp)
    have hr := ih fun p hp => h p (by simp [hp])
    simp [evalConstraintList, hc, hr]

/-- Helper: with all constraints before the first failing one passing, the
loop stops right at the failing constraint, logging its message. -/
theorem evalConstraintList_first_fail {α : Type}
    (pre post : List (Constraint α)) (c : Constraint α)
    (hpre : ∀ p ∈ pre, p.call = true) (hc : c.call = false) :
    evalConstraintList (pre ++ c :: post) = (false, pre.length + 1, [c.on_fail]) := by
  induction pre with
  | nil => simp [evalConstraintList, hc]
  | cons q pre ih =>
    have hq : q.call = true := hpre q (by simp)
    have hr := ih fun p hp => hpre p (by simp [hp])
    simp [evalConstraintList, hq, hr]

/-- C3: evaluate_constraints returns true iff every constraint passes; with
a first failing constraint it returns false at once, logging exactly that
constraint's failure message and invoking only the constraints up to and
including the failing one (the invoked constraints are the first count
elements of the list, so everything after the failure is never invoked). -/
theorem evaluate_constraints_short_circuits {α : Type}
    (cs pre post : List (Constraint α)) (c : Constraint α)
    (hpre : ∀ p ∈ pre, p.call = true) (hc : c.call = false) :
    ((ResourceMonitor.mk cs).evaluate_constraints.1 = cs.all Constraint.call)
    ∧ ((∀ p ∈ cs, p.call = true) →
        (ResourceMonitor.mk cs).evaluate_constraints = (true, cs.length, []))
    ∧ (ResourceMonitor.mk (pre ++ c :: post)).evaluate_constraints =
        (false, pre.length + 1, [c.on_fail]) :=
  ⟨evalConstraintList_fst cs,
   fun h => evalConstraintList_all_pass cs h,
   evalConstraintList_first_fail pre post c hpre hc⟩

/-- A passing concrete constraint. -/
def passConstraint : Constraint Unit := ⟨"pass", fun _ => true, (), none⟩

/-- A failing concrete constraint. -/
def failConstraint : Constraint Unit := ⟨"fail", fun _ => false, (), none⟩

/-- Witness for C3 on the list [pass, fail, pass]: evaluation returns false,
invokes exactly 2 of the 3 constraints - the trailing pass constraint is
never invoked - and logs the failing constraint's message. -/
theorem evaluate_constraints_short_circuits_witness :
    (ResourceMonitor.mk ([passConstraint] ++ failConstraint :: [passConstraint])).evaluate_constraints =
      (false, [passConstraint].length + 1, [failConstraint.on_fail]) :=
  (evaluate_constraints_short_circuits
      [passConstraint, failConstraint, passConstraint]
      [passConstraint] [passConstraint] failConstraint
      (by intro p hp; simp at hp; subst hp; rfl) rfl).2.2

/-- C10: a ResourceMonitor whose constraint list is empty - in particular
one initialized with None or with an empty list, both of which the
constructor turns into the empty list - always passes: evaluate_constraints
and validate both return true. -/
theorem resourceMonitor_empty_always_passes {α : Type} (m : ResourceMonitor α)
    (h : m.constraints = []) :
    m.evaluate_constraints.1 = true ∧ m.validate = true
    ∧ (ResourceMonitor.init (α := α) none).constraints = []
    ∧ (ResourceMonitor.init (α := α) (some [])).constraints = [] := by
  obtain ⟨cs⟩ := m
  simp only [ResourceMonitor.constraints] at h
  subst h
  exact ⟨rfl, rfl, rfl, rfl⟩

/-- Witness for C10: the monitor initialized with no constraints passes. -/
theorem resourceMonitor_empty_always_passes_witness :
    (ResourceMonitor.init (α := Unit) none).evaluate_constraints.1 = true
    ∧ (ResourceMonitor.init (α := Unit) none).validate = true
    ∧ (ResourceMonitor.init (α := Unit) none).constraints = []
    ∧ (ResourceMonitor.init (α := Unit) (some [])).constraints = [] :=
  resourceMonitor_empty_always_passes (ResourceMonitor.init none) rfl

/-- C4: is_dirty_with_submodules is true exactly when the top-level
repository has staged, unstaged or untracked changes or some registered
submodule has; in particular it is true for a clean top-level repository
whose only change is inside a submodule. -/
theorem is_dirty_with_submodules_correct (r : RepoState) :
    (r.is_dirty_with_submodules =
      (!r.stagedPaths.isEmpty || !r.unstagedPaths.isEmpty || !r.untracked.isEmpty
        || r.submodules.any SubRepoState.hasUncommitted))
    ∧ (RepoState.mk [] [] [] [⟨[], ["sub/file.py"], []⟩]).is_dirty_with_submodules
        = true := by
  refine ⟨?_, by decide⟩
  have hsub : (fun s : SubRepoState => s.is_dirty true) = SubRepoState.hasUncommitted := by
    funext s
    simp [SubRepoState.is_dirty, SubRepoState.hasUncommitted]
  obtain ⟨st, un, ut, subs⟩ := r
  simp only [RepoState.is_dirty_with_submodules, RepoState.is_dirty, Bool.true_and, hsub]
  cases hA : st.isEmpty <;> cases hB : un.isEmpty <;> cases hC : ut.isEmpty <;>
    cases hS : subs.any SubRepoState.hasUncommitted <;> simp [hA, hB, hC, hS]

/-- C5: try_prompt_full_reset with force_reset resets unconditionally, never
consulting dirtiness nor the prompt; without force_reset it prompts exactly
when the repository (submodules included) is dirty, after surfacing the
uncommitted paths, and resets exactly on a yes answer, so a clean repository
or a no answer leaves the repository unreset. -/
theorem try_prompt_full_reset_correct (r : RepoState) (answer : Bool) :
    (r.try_prompt_full_reset answer true = ⟨r.full_reset, false, none, true⟩)
    ∧ (r.is_dirty_with_submodules = true →
        r.try_prompt_full_reset answer false =
          ⟨if answer then r.full_reset else r, true, some r.uncommitted_changes, answer⟩)
    ∧ (r.is_dirty_with_submodules = false →
        r.try_prompt_full_reset answer false = ⟨r, false, none, false⟩) := by
  refine ⟨rfl, fun h => ?_, fun h => ?_⟩ <;>
    cases answer <;> simp [RepoState.try_prompt_full_reset, h]

/-- Witness for C5 at a repository with one unstaged change: not forcing and
answering no prompts but leaves the repository untouched, while forcing
resets it. -/
theorem try_prompt_full_reset_correct_witness :
    ((RepoState.mk [] ["mod.py"] [] []).try_prompt_full_reset false true =
      ⟨(RepoState.mk [] ["mod.py"] [] []).full_reset, false, none, true⟩)
    ∧ ((RepoState.mk [] ["mod.py"] [] []).try_prompt_full_reset false false =
        ⟨if false then (RepoState.mk [] ["mod.py"] [] []).full_reset
          else RepoState.mk [] ["mod.py"] [] [],
         true, some (RepoState.mk [] ["mod.py"] [] []).uncommitted_changes, false⟩) :=
  ⟨(try_prompt_full_reset_correct (RepoState.mk [] ["mod.py"] [] []) false).1,
   (try_prompt_full_reset_correct (RepoState.mk [] ["mod.py"] [] []) false).2.1 (by decide)⟩

/-- A picker with nothing pre-set, over trivial configuration types. -/
def trivialPicker : PickerModel Unit Unit Unit := ⟨none, none, (), (), ()⟩

/-- C6: when the external-process adapter signals failure during the Run
hook, the launcher catches it (the outcome is an orderly SystemExit, never
an uncaught exception), logs the error, exits with the non-zero code -1,
and the PostRun hook - in particular its data-transfer step - is never
invoked. -/
theorem run_hook_failure_contained {R S T : Type} (m : LauncherModel)
    (p : PickerModel R S T) (h : m.appSignalsFailure = true) :
    (BaseLauncher.main m p).2 = Control.systemExit (-1)
    ∧ Ev.errorLogged "Bonsai app failed to run." ∈ (BaseLauncher.main m p).1
    ∧ Ev.postRunStarted ∉ (BaseLauncher.main m p).1
    ∧ Ev.transferInvoked ∉ (BaseLauncher.main m p).1
    ∧ ∀ msg, (BaseLauncher.main m p).2 ≠ Control.pyExc msg := by
  cases htl : p.taskLogicPreset.isNone <;> cases hrg : p.rigPreset.isNone <;>
    simp [BaseLauncher.main, BaseLauncher.run_hooks, seqStep,
      BehaviorLauncher.pre_run_hook, BehaviorLauncher.run_hook, h,
      BaseLauncher.ui_prompt, htl, hrg]

/-- A run environment whose external-process adapter fails and with no
optional services attached. -/
def failingAppModel : LauncherModel := ⟨true, none, false, none, none, false⟩

/-- Witness for C6 at a concrete run: the failing adapter leads to a logged
error, exit code -1, and no PostRun activity. -/
theorem run_hook_failure_contained_witness :
    (BaseLauncher.main failingAppModel trivialPicker).2 = Control.systemExit (-1)
    ∧ Ev.errorLogged "Bonsai app failed to run."
        ∈ (BaseLauncher.main failingAppModel trivialPicker).1
    ∧ Ev.postRunStarted ∉ (BaseLauncher.main failingAppModel trivialPicker).1
    ∧ Ev.transferInvoked ∉ (BaseLauncher.main failingAppModel trivialPicker).1
    ∧ ∀ msg, (BaseLauncher.main failingAppModel trivialPicker).2 ≠ Control.pyExc msg :=
  run_hook_failure_contained failingAppModel trivialPicker rfl

/-- A run environment where the temp-directory copy of the PostRun hook
fails with an OSError while a healthy data-transfer service is attached;
the copy step is guarded only against ValueError. -/
def copyFailsModel : LauncherModel :=
  ⟨false, some false, false, some CopyFailure.osError, some ⟨true, false⟩, false⟩

/-- Counterexample to C7: with the temp-directory copy failing with an
OSError (shutil.copytree failure), the data-transfer step - though its
service is attached and not skipped - is never attempted, the exception
escapes the PostRun hook, and disposal never completes, contradicting the
claim that a failure in any one step never prevents the others. -/
theorem postRun_not_independently_guarded :
    Ev.transferValidated ∉ (BehaviorLauncher.post_run_hook copyFailsModel).1
    ∧ Ev.transferInvoked ∉ (BehaviorLauncher.post_run_hook copyFailsModel).1
    ∧ (BehaviorLauncher.post_run_hook copyFailsModel).2 = Control.pyExc "copytree failed"
    ∧ Ev.disposed ∉ (BaseLauncher.main copyFailsModel trivialPicker).1
    ∧ (BaseLauncher.main copyFailsModel trivialPicker).2 =
        Control.pyExc "copytree failed" := by
  decide

/-- C7 (amended): the data-mapping and data-transfer steps of the PostRun
hook are guarded by catch-all handlers and the log-copy step swallows the
ValueError of a missing session directory, so as long as the copy does not
fail with a non-ValueError the hook returns normally: a raising data mapper
is invoked, its failure logged, and the log-copy and data-transfer steps
are still attempted; a data-transfer failure never aborts the hook; and
when the run succeeded, disposal completes. (A non-ValueError copy failure,
by contrast, propagates - see the counterexample.) -/
theorem postRun_steps_guarded {R S T : Type} (m : LauncherModel)
    (p : PickerModel R S T)
    (hcopy : m.copyOutcome ≠ some CopyFailure.osError) :
    ((BehaviorLauncher.post_run_hook m).2 = Control.normal)
    ∧ Ev.copyAttempted ∈ (BehaviorLauncher.post_run_hook m).1
    ∧ (m.dataMapper = some true → m.skipDataMapping = false →
        Ev.mapperInvoked ∈ (BehaviorLauncher.post_run_hook m).1
        ∧ Ev.errorLogged "Data mapper service has failed"
            ∈ (BehaviorLauncher.post_run_hook m).1)
    ∧ (∀ dt, m.dataTransfer = some dt → m.skipDataTransfer = false →
        Ev.transferValidated ∈ (BehaviorLauncher.post_run_hook m).1)
    ∧ (m.appSignalsFailure = false → Ev.disposed ∈ (BaseLauncher.main m p).1) := by
  rcases m with ⟨app, dm, sdm, co, dtr, sdt⟩
  have hco : co = none ∨ co = some CopyFailure.valueError := by
    rcases co with _ | cf
    · exact Or.inl rfl
    · cases cf
      · exact Or.inr rfl
      · exact absurd rfl hcopy
  have hpost : (BehaviorLauncher.post_run_hook ⟨app, dm, sdm, co, dtr, sdt⟩).2 =
      Control.normal := by
    rcases hco with h | h <;> subst h <;> simp [BehaviorLauncher.post_run_hook]
  refine ⟨hpost, ?_, ?_, ?_, ?_⟩
  · rcases hco with h | h <;> subst h <;> simp [BehaviorLauncher.post_run_hook]
  · intro h1 h2
    subst h1
    subst h2
    rcases hco with h | h <;> subst h <;>
      simp [BehaviorLauncher.post_run_hook]
  · intro dt h1 h2
    subst h1
    subst h2
    rcases hco with h | h <;> subst h <;>
      rcases dt with ⟨v, tf⟩ <;> cases v <;> cases tf <;>
        simp [BehaviorLauncher.post_run_hook]
  · intro happ
    subst happ
    rcases hP : BehaviorLauncher.post_run_hook ⟨false, dm, sdm, co, dtr, sdt⟩
      with ⟨postEvs, postC⟩
    rw [hP] at hpost
    simp only at hpost
    subst hpost
    simp [BaseLauncher.main, BaseLauncher.run_hooks, seqStep,
      BehaviorLauncher.pre_run_hook, BehaviorLauncher.run_hook, hP]

/-- A run environment with a raising data mapper and a healthy transfer
service, whose temp-directory copy succeeds. -/
def mapperRaisesModel : LauncherModel :=
  ⟨false, some true, false, none, some ⟨true, false⟩, false⟩

/-- Witness for the amended C7 at a concrete run: the raising data mapper
is invoked and its failure logged, the copy and transfer steps still run,
the hook returns normally and disposal completes. -/
theorem postRun_steps_guarded_witness :
    ((BehaviorLauncher.post_run_hook mapperRaisesModel).2 = Control.normal)
    ∧ Ev.copyAttempted ∈ (BehaviorLauncher.post_run_hook mapperRaisesModel).1
    ∧ (Ev.mapperInvoked ∈ (BehaviorLauncher.post_run_hook mapperRaisesModel).1
        ∧ Ev.errorLogged "Data mapper service has failed"
            ∈ (BehaviorLauncher.post_run_hook mapperRaisesModel).1)
    ∧ Ev.transferValidated ∈ (BehaviorLauncher.post_run_hook mapperRaisesModel).1
    ∧ Ev.disposed ∈ (BaseLauncher.main mapperRaisesModel trivialPicker).1 :=
  ⟨(postRun_steps_guarded mapperRaisesModel trivialPicker (by decide)).1,
   (postRun_steps_guarded mapperRaisesModel trivialPicker (by decide)).2.1,
   (postRun_steps_guarded mapperRaisesModel trivialPicker (by decide)).2.2.1 rfl rfl,
   (postRun_steps_guarded mapperRaisesModel trivialPicker (by decide)).2.2.2.1
     ⟨true, false⟩ rfl rfl,
   (postRun_steps_guarded mapperRaisesModel trivialPicker (by decide)).2.2.2.2 rfl⟩

/-- A repository whose only change is a single top-level untracked file. -/
def untrackedOnlyRepo : RepoState := ⟨[], [], ["untracked.txt"], []⟩

/-- A run environment whose external calls all succeed and with no optional
services attached. -/
def okLauncherModel : LauncherModel := ⟨false, none, false, none, none, false⟩

/-- Counterexample to C8: with allow-dirty unset, a repository whose only
change is one untracked file - dirty according to is_dirty_with_submodules -
and an operator who would answer no, validation passes without ever
prompting (its entry check is repository.is_dirty(), whose GitPython default
excludes untracked files), the launch proceeds, and the Run hook runs the
external-process adapter; the claimed fatal exit with Run-hook invocation
count 0 does not happen. -/
theorem validate_untracked_only_counterexample :
    untrackedOnlyRepo.is_dirty_with_submodules = true
    ∧ BaseLauncher.validate untrackedOnlyRepo false false =
        ⟨untrackedOnlyRepo, none, false⟩
    ∧ Ev.appRun ∈ (launchRun untrackedOnlyRepo false false okLauncherModel
        trivialPicker).1
    ∧ (launchRun untrackedOnlyRepo false false okLauncherModel trivialPicker).2 =
        Control.systemExit 0 := by
  decide

/-- Helper: a repository dirty without counting top-level untracked files is
dirty with them counted, hence dirty with submodules. -/
theorem is_dirty_false_implies_with_submodules (r : RepoState)
    (h : r.is_dirty false = true) : r.is_dirty_with_submodules = true := by
  obtain ⟨st, un, ut, subs⟩ := r
  simp only [RepoState.is_dirty, Bool.false_and, Bool.or_false] at h
  simp [RepoState.is_dirty_with_submodules, RepoState.is_dirty, h]

/-- C8 (amended): the entry check of environment validation is
repository.is_dirty(), which ignores top-level untracked files (while still
counting staged or unstaged changes and dirty submodules); a repository that
is clean by that check - in particular one whose only change is an untracked
file - passes validation without prompting and the Run hook is invoked.
When the entry check reports dirty and allow-dirty is unset, validation
prompts via try_prompt_full_reset and, if is_dirty_with_submodules() still
holds afterwards (e.g. the operator answered no), it exits fatally with the
generic code -1 and the Run hook is never invoked. -/
theorem validate_dirty_flow {R S T : Type} (r : RepoState) (answer : Bool)
    (m : LauncherModel) (p : PickerModel R S T) :
    (r.is_dirty false = false →
      BaseLauncher.validate r false answer = ⟨r, none, false⟩
      ∧ Ev.appRun ∈ (launchRun r false answer m p).1)
    ∧ (r.is_dirty false = true →
        (BaseLauncher.validate r false answer).prompted = true
        ∧ ((r.try_prompt_full_reset_launcher_copy answer false).repo.is_dirty_with_submodules
              = true →
            (BaseLauncher.validate r false answer).fatalExit = some (-1)
            ∧ Ev.appRun ∉ (launchRun r false answer m p).1
            ∧ (launchRun r false answer m p).2 = Control.systemExit (-1))
        ∧ ((r.try_prompt_full_reset_launcher_copy answer false).repo.is_dirty_with_submodules
              = false →
            (BaseLauncher.validate r false answer).fatalExit = none)) := by
  constructor
  · intro h
    constructor
    · simp [BaseLauncher.validate, h]
    · have hv : (BaseLauncher.validate r false answer).fatalExit = none := by
        simp [BaseLauncher.validate, h]
      rcases hP : BehaviorLauncher.post_run_hook m with ⟨postEvs, postC⟩
      cases htl : p.taskLogicPreset.isNone <;> cases hrg : p.rigPreset.isNone <;>
        cases happ : m.appSignalsFailure <;> cases postC <;>
          simp [launchRun, hv, BaseLauncher.main, BaseLauncher.run_hooks, seqStep,
            BehaviorLauncher.pre_run_hook, BehaviorLauncher.run_hook,
            BaseLauncher.ui_prompt, htl, hrg, happ, hP]
  · intro h
    have hd : r.is_dirty_with_submodules = true :=
      is_dirty_false_implies_with_submodules r h
    have hpp : (r.try_prompt_full_reset_launcher_copy answer false).prompted = true := by
      cases answer <;> simp [RepoState.try_prompt_full_reset_launcher_copy, hd]
    refine ⟨?_, fun hstill => ?_, fun hclean => ?_⟩
    · simp only [BaseLauncher.validate, h, Bool.not_false, if_true]
      split <;> simp [hpp]
    · have hv : (BaseLauncher.validate r false answer).fatalExit = some (-1) := by
        simp [BaseLauncher.validate, h, hstill]
      exact ⟨hv, by simp [launchRun, hv], by simp [launchRun, hv]⟩
    · simp [BaseLauncher.validate, h, hclean]

/-- A repository with one staged change and no submodules. -/
def stagedOnlyRepo : RepoState := ⟨["staged.py"], [], [], []⟩

/-- Witness for the amended C8 at a concrete repository with a staged
change and an operator answering no: validation prompts, exits fatally with
-1, and the Run hook is never invoked; and at a repository with only an
untracked file validation passes and the Run hook runs. -/
theorem validate_dirty_flow_witness :
    ((BaseLauncher.validate stagedOnlyRepo false false).prompted = true)
    ∧ ((BaseLauncher.validate stagedOnlyRepo false false).fatalExit = some (-1)
        ∧ Ev.appRun ∉ (launchRun stagedOnlyRepo false false okLauncherModel
            trivialPicker).1
        ∧ (launchRun stagedOnlyRepo false false okLauncherModel trivialPicker).2 =
            Control.systemExit (-1))
    ∧ (BaseLauncher.validate untrackedOnlyRepo false false =
          ⟨untrackedOnlyRepo, none, false⟩
        ∧ Ev.appRun ∈ (launchRun untrackedOnlyRepo false false okLauncherModel
            trivialPicker).1) :=
  ⟨((validate_dirty_flow stagedOnlyRepo false okLauncherModel trivialPicker).2
      (by decide)).1,
   ((validate_dirty_flow stagedOnlyRepo false okLauncherModel trivialPicker).2
      (by decide)).2.1 (by decide),
   (validate_dirty_flow untrackedOnlyRepo false okLauncherModel trivialPicker).1
      (by decide)⟩

/-- C9: configuration resolution invokes the picker operations in the fixed
order session, then task logic, then rig (the emitted pick events start
with the session pick and follow that canonical order); and a task-logic or
rig configuration pre-set at construction (e.g. loaded from a CLI-supplied
path by _solve_schema_instances, where the CLI path takes precedence over
the constructor argument) is returned unchanged with the corresponding
picker operation never invoked, while an absent preset is resolved by the
picker. -/
theorem picker_order_and_overrides {R S T : Type} (p : PickerModel R S T)
    (loadRig : String → R) (loadTask : String → T)
    (rigPath taskPath : Option String) :
    ((BaseLauncher.ui_prompt p).1.head? = some Ev.pickSession)
    ∧ List.Sublist (BaseLauncher.ui_prompt p).1
        [Ev.pickSession, Ev.pickTaskLogic, Ev.pickRig]
    ∧ (∀ t, p.taskLogicPreset = some t →
        (BaseLauncher.ui_prompt p).2.2.1 = t
        ∧ Ev.pickTaskLogic ∉ (BaseLauncher.ui_prompt p).1)
    ∧ (∀ rg, p.rigPreset = some rg →
        (BaseLauncher.ui_prompt p).2.2.2 = rg
        ∧ Ev.pickRig ∉ (BaseLauncher.ui_prompt p).1)
    ∧ (p.taskLogicPreset = none →
        (BaseLauncher.ui_prompt p).2.2.1 = p.pickTaskLogic
        ∧ Ev.pickTaskLogic ∈ (BaseLauncher.ui_prompt p).1)
    ∧ (p.rigPreset = none →
        (BaseLauncher.ui_prompt p).2.2.2 = p.pickRig
        ∧ Ev.pickRig ∈ (BaseLauncher.ui_prompt p).1)
    ∧ BaseLauncher.solve_schema_instances loadRig loadTask none none rigPath taskPath
        = (rigPath.map loadRig, taskPath.map loadTask)
    ∧ (∀ cp ct, BaseLauncher.solve_schema_instances loadRig loadTask
          (some cp) (some ct) rigPath taskPath
          = (some (loadRig cp), some (loadTask ct))) := by
  rcases p with ⟨rigP, tlP, ps, pt, pr⟩
  rcases rigP with _ | rg0 <;> rcases tlP with _ | t0 <;>
    refine ⟨rfl, by simp [BaseLauncher.ui_prompt], ?_, ?_, ?_, ?_, rfl,
      fun cp ct => rfl⟩ <;>
      simp [BaseLauncher.ui_prompt]

/-- A concrete picker with both a rig and a task-logic preset. -/
def presetPicker : PickerModel Nat String Nat := ⟨some 5, some 7, "sess", 3, 100⟩

/-- Witness for C9 at a concrete picker carrying both presets: the trace
starts with the session pick, the presets are returned unchanged, and
neither the task-logic nor the rig picker operation is invoked. -/
theorem picker_order_and_overrides_witness :
    ((BaseLauncher.ui_prompt presetPicker).1.head? = some Ev.pickSession)
    ∧ ((BaseLauncher.ui_prompt presetPicker).2.2.1 = 7
        ∧ Ev.pickTaskLogic ∉ (BaseLauncher.ui_prompt presetPicker).1)
    ∧ ((BaseLauncher.ui_prompt presetPicker).2.2.2 = 5
        ∧ Ev.pickRig ∉ (BaseLauncher.ui_prompt presetPicker).1)
    ∧ (∀ cp ct, BaseLauncher.solve_schema_instances
          (fun s => s.length) (fun s => s.length) (some cp) (some ct) none none
          = (some cp.length, some ct.length)) :=
  ⟨(picker_order_and_overrides presetPicker (fun s => s.length) (fun s => s.length)
      none none).1,
   (picker_order_and_overrides presetPicker (fun s => s.length) (fun s => s.length)
      none none).2.2.1 7 rfl,
   (picker_order_and_overrides presetPicker (fun s => s.length) (fun s => s.length)
      none none).2.2.2.1 5 rfl,
   (picker_order_and_overrides presetPicker (fun s => s.length) (fun s => s.length)
      none none).2.2.2.2.2.2.2⟩

end Clabe
